import Mathlib

set_option maxRecDepth 100000

/-!
Verification development for the BasicCli repository (Rust).

The development shallowly embeds the two core components:
* the benchmark runner (src/src/commands/benchmark.rs), and
* the file handler (src/src/rust/utils/file_handler.rs).

Machine integers are modelled as Nat with explicit reduction mod 2^w.
Rust f64 values that only ever hold exact ratios of measured quantities
are modelled as Rat. Wall-clock time is nondeterministic, so every
timed workload is parameterised by its observed elapsed duration
(in nanoseconds). The filesystem is modelled as an association list
from paths (lists of components) to entries; Rust strings are modelled
as their UTF-8 byte sequences (lists of Nat below 256).

The hash algorithms used by FileHandler.checksum come from external
crates (md5, sha1, sha2); they are embedded here as the standard
MD5 / SHA-1 / SHA-256 / SHA-512 algorithms, with the SHA round
constants computed from their defining integer roots of primes.
-/

/-! ## 32-bit and 64-bit word helpers -/

def M32 : Nat := 4294967296

def M64 : Nat := 18446744073709551616

def add32 (a b : Nat) : Nat := (a + b) % M32

def rotl32 (x s : Nat) : Nat := ((x <<< s) ||| (x >>> (32 - s))) % M32

def rotr32 (x s : Nat) : Nat := ((x >>> s) ||| (x <<< (32 - s))) % M32

def rotr64 (x s : Nat) : Nat := ((x >>> s) ||| (x <<< (64 - s))) % M64

def not32 (x : Nat) : Nat := x ^^^ 4294967295

/-- Fuel-driven worker for `chunksOf`; the fuel is the list length, and
each step consumes at least one element. -/
def chunksOfAux (n : Nat) : Nat → List Nat → List (List Nat)
  | 0, _ => []
  | _, [] => []
  | fuel + 1, b :: rest =>
      (b :: rest).take (n + 1) :: chunksOfAux n fuel ((b :: rest).drop (n + 1))

/-- Split a byte list into chunks of size n + 1 (used for 512-bit and
1024-bit hash blocks). -/
def chunksOf (n : Nat) (l : List Nat) : List (List Nat) :=
  chunksOfAux n l.length l

/-- Big-endian bytes of a number, fixed width. -/
def beBytes : Nat → Nat → List Nat
  | 0, _ => []
  | w + 1, x => beBytes w (x / 256) ++ [x % 256]

/-- Little-endian bytes of a number, fixed width. -/
def leBytes : Nat → Nat → List Nat
  | 0, _ => []
  | w + 1, x => x % 256 :: leBytes w (x / 256)

/-- Interpret four consecutive bytes (starting at index `i`) of a block
as a little-endian 32-bit word. -/
def leWordAt (block : List Nat) (i : Nat) : Nat :=
  block.getD i 0 + 256 * block.getD (i + 1) 0 +
    65536 * block.getD (i + 2) 0 + 16777216 * block.getD (i + 3) 0

/-- Interpret four consecutive bytes as a big-endian 32-bit word. -/
def beWordAt (block : List Nat) (i : Nat) : Nat :=
  16777216 * block.getD i 0 + 65536 * block.getD (i + 1) 0 +
    256 * block.getD (i + 2) 0 + block.getD (i + 3) 0

/-- Interpret eight consecutive bytes as a big-endian 64-bit word. -/
def beWord64At (block : List Nat) (i : Nat) : Nat :=
  List.foldl (fun acc j => acc * 256 + block.getD (i + j) 0) 0 (List.range 8)

def hexDigitChar (n : Nat) : Char :=
  if n < 10 then Char.ofNat (48 + n) else Char.ofNat (87 + n)

/-- Lowercase hexadecimal rendering of a byte list, two digits per byte:
the semantics of formatting a digest with the lower-hex formatter. -/
def hexOfBytes (bs : List Nat) : String :=
  String.mk ((bs.map (fun b => [hexDigitChar (b / 16 % 16), hexDigitChar (b % 16)])).flatten)

/-! ## MD5 (md5 crate; RFC 1321) -/

/-- The 64 MD5 sine-derived constants, floor of 2^32 * abs (sin (i+1)). -/
def md5T : List Nat :=
  [0xd76aa478, 0xe8c7b756, 0x242070db, 0xc1bdceee,
   0xf57c0faf, 0x4787c62a, 0xa8304613, 0xfd469501,
   0x698098d8, 0x8b44f7af, 0xffff5bb1, 0x895cd7be,
   0x6b901122, 0xfd987193, 0xa679438e, 0x49b40821,
   0xf61e2562, 0xc040b340, 0x265e5a51, 0xe9b6c7aa,
   0xd62f105d, 0x02441453, 0xd8a1e681, 0xe7d3fbc8,
   0x21e1cde6, 0xc33707d6, 0xf4d50d87, 0x455a14ed,
   0xa9e3e905, 0xfcefa3f8, 0x676f02d9, 0x8d2a4c8a,
   0xfffa3942, 0x8771f681, 0x6d9d6122, 0xfde5380c,
   0xa4beea44, 0x4bdecfa9, 0xf6bb4b60, 0xbebfbc70,
   0x289b7ec6, 0xeaa127fa, 0xd4ef3085, 0x04881d05,
   0xd9d4d039, 0xe6db99e5, 0x1fa27cf8, 0xc4ac5665,
   0xf4292244, 0x432aff97, 0xab9423a7, 0xfc93a039,
   0x655b59c3, 0x8f0ccc92, 0xffeff47d, 0x85845dd1,
   0x6fa87e4f, 0xfe2ce6e0, 0xa3014314, 0x4e0811a1,
   0xf7537e82, 0xbd3af235, 0x2ad7d2bb, 0xeb86d391]

/-- The MD5 per-operation left-rotation amounts. -/
def md5S : List Nat :=
  [7, 12, 17, 22, 7, 12, 17, 22, 7, 12, 17, 22, 7, 12, 17, 22,
   5, 9, 14, 20, 5, 9, 14, 20, 5, 9, 14, 20, 5, 9, 14, 20,
   4, 11, 16, 23, 4, 11, 16, 23, 4, 11, 16, 23, 4, 11, 16, 23,
   6, 10, 15, 21, 6, 10, 15, 21, 6, 10, 15, 21, 6, 10, 15, 21]

def md5Op (X : List Nat) (st : Nat × Nat × Nat × Nat) (i : Nat) :
    Nat × Nat × Nat × Nat :=
  let a := st.1
  let b := st.2.1
  let c := st.2.2.1
  let d := st.2.2.2
  let f :=
    if i < 16 then (b &&& c) ||| (not32 b &&& d)
    else if i < 32 then (d &&& b) ||| (not32 d &&& c)
    else if i < 48 then b ^^^ c ^^^ d
    else c ^^^ (b ||| not32 d)
  let g :=
    if i < 16 then i
    else if i < 32 then (5 * i + 1) % 16
    else if i < 48 then (3 * i + 5) % 16
    else (7 * i) % 16
  let tmp := add32 a (add32 f (add32 (md5T.getD i 0) (X.getD g 0)))
  (d, add32 b (rotl32 tmp (md5S.getD i 0)), b, c)

def md5Block (st : Nat × Nat × Nat × Nat) (block : List Nat) :
    Nat × Nat × Nat × Nat :=
  let X := (List.range 16).map (fun j => leWordAt block (4 * j))
  let r := List.foldl (md5Op X) st (List.range 64)
  (add32 st.1 r.1, add32 st.2.1 r.2.1, add32 st.2.2.1 r.2.2.1,
   add32 st.2.2.2 r.2.2.2)

/-- MD5 padding: a 0x80 byte, zeros to 56 mod 64, then the bit length
as a little-endian 64-bit quantity. -/
def md5Pad (msg : List Nat) : List Nat :=
  msg ++ [128] ++ List.replicate ((119 - msg.length % 64) % 64) 0 ++
    leBytes 8 (msg.length * 8 % M64)

/-- The 16-byte MD5 digest of a byte sequence. -/
def md5Digest (msg : List Nat) : List Nat :=
  let st := List.foldl md5Block
    (0x67452301, 0xefcdab89, 0x98badcfe, 0x10325476)
    (chunksOf 63 (md5Pad msg))
  leBytes 4 st.1 ++ leBytes 4 st.2.1 ++ leBytes 4 st.2.2.1 ++
    leBytes 4 st.2.2.2

def md5Hex (msg : List Nat) : String := hexOfBytes (md5Digest msg)

/-! ## Integer roots, for the SHA round constants -/

/-- Binary-search worker: maintains lo ^ k <= n < hi ^ k. -/
def rootAux (k n : Nat) : Nat → Nat → Nat → Nat
  | 0, lo, _ => lo
  | fuel + 1, lo, hi =>
      if hi ≤ lo + 1 then lo
      else if ((lo + hi) / 2) ^ k ≤ n then rootAux k n fuel ((lo + hi) / 2) hi
      else rootAux k n fuel lo ((lo + hi) / 2)

/-- Floor of the k-th root of n. -/
def introot (k n : Nat) : Nat := rootAux k n (n + 2) 0 (n + 1)

/-- The first 80 primes; the SHA-2 round constants are the fractional
parts of their square and cube roots. -/
def primes80 : List Nat :=
  [2, 3, 5, 7, 11, 13, 17, 19, 23, 29, 31, 37, 41, 43, 47, 53, 59, 61,
   67, 71, 73, 79, 83, 89, 97, 101, 103, 107, 109, 113, 127, 131, 137,
   139, 149, 151, 157, 163, 167, 173, 179, 181, 191, 193, 197, 199,
   211, 223, 227, 229, 233, 239, 241, 251, 257, 263, 269, 271, 277,
   281, 283, 293, 307, 311, 313, 317, 331, 337, 347, 349, 353, 359,
   367, 373, 379, 383, 389, 397, 401, 409]

/-! ## SHA-1 (sha1 crate; FIPS 180-4) -/

def sha1F (i b c d : Nat) : Nat :=
  if i < 20 then (b &&& c) ||| (not32 b &&& d)
  else if i < 40 then b ^^^ c ^^^ d
  else if i < 60 then (b &&& c) ||| (b &&& d) ||| (c &&& d)
  else b ^^^ c ^^^ d

def sha1K (i : Nat) : Nat :=
  if i < 20 then 0x5a827999
  else if i < 40 then 0x6ed9eba1
  else if i < 60 then 0x8f1bbcdc
  else 0xca62c1d6

def sha1Round (W : List Nat) (st : List Nat) (i : Nat) : List Nat :=
  match st with
  | [a, b, c, d, e] =>
      let t := (rotl32 a 5 + sha1F i b c d + e + sha1K i + W.getD i 0) % M32
      [t, a, rotl32 b 30, c, d]
  | other => other

def sha1Block (st : List Nat) (block : List Nat) : List Nat :=
  let w16 := (List.range 16).map (fun j => beWordAt block (4 * j))
  let W := List.foldl
    (fun w i => w ++ [rotl32 (w.getD (i - 3) 0 ^^^ w.getD (i - 8) 0 ^^^
      w.getD (i - 14) 0 ^^^ w.getD (i - 16) 0) 1])
    w16 (List.range' 16 64)
  let r := List.foldl (sha1Round W) st (List.range 80)
  List.zipWith (fun x y => (x + y) % M32) st r

/-- Merkle-Damgard padding with a 64-bit big-endian bit length
(shared by SHA-1 and SHA-256). -/
def shaPad64 (msg : List Nat) : List Nat :=
  msg ++ [128] ++ List.replicate ((119 - msg.length % 64) % 64) 0 ++
    beBytes 8 (msg.length * 8 % M64)

def sha1Digest (msg : List Nat) : List Nat :=
  let st := List.foldl sha1Block
    [0x67452301, 0xefcdab89, 0x98badcfe, 0x10325476, 0xc3d2e1f0]
    (chunksOf 63 (shaPad64 msg))
  (st.map (beBytes 4)).flatten

def sha1Hex (msg : List Nat) : String := hexOfBytes (sha1Digest msg)

/-! ## SHA-256 (sha2 crate; FIPS 180-4) -/

def sha256K : List Nat := (primes80.take 64).map (fun p => introot 3 (p <<< 96) % M32)

def sha256H0 : List Nat := (primes80.take 8).map (fun p => introot 2 (p <<< 64) % M32)

def sSig0 (x : Nat) : Nat := rotr32 x 7 ^^^ rotr32 x 18 ^^^ (x >>> 3)

def sSig1 (x : Nat) : Nat := rotr32 x 17 ^^^ rotr32 x 19 ^^^ (x >>> 10)

def bSig0 (x : Nat) : Nat := rotr32 x 2 ^^^ rotr32 x 13 ^^^ rotr32 x 22

def bSig1 (x : Nat) : Nat := rotr32 x 6 ^^^ rotr32 x 11 ^^^ rotr32 x 25

def sha256Round (W : List Nat) (st : List Nat) (i : Nat) : List Nat :=
  match st with
  | [a, b, c, d, e, f, g, h] =>
      let t1 := (h + bSig1 e + ((e &&& f) ^^^ (not32 e &&& g)) +
        sha256K.getD i 0 + W.getD i 0) % M32
      let t2 := (bSig0 a + ((a &&& b) ^^^ (a &&& c) ^^^ (b &&& c))) % M32
      [(t1 + t2) % M32, a, b, c, (d + t1) % M32, e, f, g]
  | other => other

def sha256Block (st : List Nat) (block : List Nat) : List Nat :=
  let w16 := (List.range 16).map (fun j => beWordAt block (4 * j))
  let W := List.foldl
    (fun w i => w ++ [(w.getD (i - 16) 0 + sSig0 (w.getD (i - 15) 0) +
      w.getD (i - 7) 0 + sSig1 (w.getD (i - 2) 0)) % M32])
    w16 (List.range' 16 48)
  let r := List.foldl (sha256Round W) st (List.range 64)
  List.zipWith (fun x y => (x + y) % M32) st r

def sha256Digest (msg : List Nat) : List Nat :=
  let st := List.foldl sha256Block sha256H0 (chunksOf 63 (shaPad64 msg))
  (st.map (beBytes 4)).flatten

def sha256Hex (msg : List Nat) : String := hexOfBytes (sha256Digest msg)

/-! ## SHA-512 (sha2 crate; FIPS 180-4) -/

def sha512K : List Nat := primes80.map (fun p => introot 3 (p <<< 192) % M64)

def sha512H0 : List Nat := (primes80.take 8).map (fun p => introot 2 (p <<< 128) % M64)

def not64 (x : Nat) : Nat := x ^^^ (M64 - 1)

def sSig0w (x : Nat) : Nat := rotr64 x 1 ^^^ rotr64 x 8 ^^^ (x >>> 7)

def sSig1w (x : Nat) : Nat := rotr64 x 19 ^^^ rotr64 x 61 ^^^ (x >>> 6)

def bSig0w (x : Nat) : Nat := rotr64 x 28 ^^^ rotr64 x 34 ^^^ rotr64 x 39

def bSig1w (x : Nat) : Nat := rotr64 x 14 ^^^ rotr64 x 18 ^^^ rotr64 x 41

def sha512Round (W : List Nat) (st : List Nat) (i : Nat) : List Nat :=
  match st with
  | [a, b, c, d, e, f, g, h] =>
      let t1 := (h + bSig1w e + ((e &&& f) ^^^ (not64 e &&& g)) +
        sha512K.getD i 0 + W.getD i 0) % M64
      let t2 := (bSig0w a + ((a &&& b) ^^^ (a &&& c) ^^^ (b &&& c))) % M64
      [(t1 + t2) % M64, a, b, c, (d + t1) % M64, e, f, g]
  | other => other

def sha512Block (st : List Nat) (block : List Nat) : List Nat :=
  let w16 := (List.range 16).map (fun j => beWord64At block (8 * j))
  let W := List.foldl
    (fun w i => w ++ [(w.getD (i - 16) 0 + sSig0w (w.getD (i - 15) 0) +
      w.getD (i - 7) 0 + sSig1w (w.getD (i - 2) 0)) % M64])
    w16 (List.range' 16 64)
  let r := List.foldl (sha512Round W) st (List.range 80)
  List.zipWith (fun x y => (x + y) % M64) st r

/-- Padding with a 128-bit big-endian bit length (SHA-512). -/
def shaPad128 (msg : List Nat) : List Nat :=
  msg ++ [128] ++ List.replicate ((239 - msg.length % 128) % 128) 0 ++
    beBytes 16 (msg.length * 8)

def sha512Digest (msg : List Nat) : List Nat :=
  let st := List.foldl sha512Block sha512H0 (chunksOf 127 (shaPad128 msg))
  (st.map (beBytes 8)).flatten

def sha512Hex (msg : List Nat) : String := hexOfBytes (sha512Digest msg)

/-! ## UTF-8 validity (semantics of read_to_string / str) -/

def isCont (b : Nat) : Bool := 128 ≤ b && b ≤ 191

/-- Fuel-driven UTF-8 validator; the fuel is the list length, and each
step consumes at least one byte. -/
def utf8ValidAux : Nat → List Nat → Bool
  | _, [] => true
  | 0, _ :: _ => false
  | fuel + 1, b :: rest =>
    if b < 128 then utf8ValidAux fuel rest
    else if 194 ≤ b && b ≤ 223 then
      match rest with
      | c1 :: r => isCont c1 && utf8ValidAux fuel r
      | [] => false
    else if b = 224 then
      match rest with
      | c1 :: c2 :: r => (160 ≤ c1 && c1 ≤ 191) && isCont c2 && utf8ValidAux fuel r
      | _ => false
    else if (225 ≤ b && b ≤ 236) || b = 238 || b = 239 then
      match rest with
      | c1 :: c2 :: r => isCont c1 && isCont c2 && utf8ValidAux fuel r
      | _ => false
    else if b = 237 then
      match rest with
      | c1 :: c2 :: r => (128 ≤ c1 && c1 ≤ 159) && isCont c2 && utf8ValidAux fuel r
      | _ => false
    else if b = 240 then
      match rest with
      | c1 :: c2 :: c3 :: r =>
          (144 ≤ c1 && c1 ≤ 191) && isCont c2 && isCont c3 && utf8ValidAux fuel r
      | _ => false
    else if 241 ≤ b && b ≤ 243 then
      match rest with
      | c1 :: c2 :: c3 :: r => isCont c1 && isCont c2 && isCont c3 && utf8ValidAux fuel r
      | _ => false
    else if b = 244 then
      match rest with
      | c1 :: c2 :: c3 :: r =>
          (128 ≤ c1 && c1 ≤ 143) && isCont c2 && isCont c3 && utf8ValidAux fuel r
      | _ => false
    else false

/-- Whether a byte sequence is valid UTF-8 (so Rust read_to_string
accepts it, and a Rust str can hold exactly these bytes). -/
def utf8Valid (l : List Nat) : Bool := utf8ValidAux l.length l

/-! ## Filesystem model -/

/-- A path, resolved into its components. -/
abbrev FPath := List String

inductive FsEntry
  | file (content : List Nat)
  | dir
deriving DecidableEq

/-- The filesystem: a finite map from paths to entries, as an
association list. -/
abbrev FS := List (FPath × FsEntry)

def lookupFS (fs : FS) (p : FPath) : Option FsEntry :=
  match fs with
  | [] => none
  | (q, e) :: rest => if q = p then some e else lookupFS rest p

def removeFS (fs : FS) (p : FPath) : FS := fs.filter (fun q => q.1 ≠ p)

def setFS (fs : FS) (p : FPath) (e : FsEntry) : FS := (p, e) :: removeFS fs p

def pathDisplay (p : FPath) : String := String.intercalate "/" p

/-- Rust Path::parent: none for the empty path, otherwise the path
without its last component. -/
def pathParent (p : FPath) : Option FPath :=
  if p = [] then none else some p.dropLast

/-- The error kinds of file_handler.rs, plus constructors for
underlying io / csv-crate errors and plain anyhow messages that the
source propagates without wrapping them in FileError. -/
inductive FileError
  | NotFound (path : String)
  | ReadError (path msg : String)
  | WriteError (path msg : String)
  | InvalidJson (msg : String)
  | InvalidYaml (msg : String)
  | InvalidCsv (msg : String)
  | UnsupportedFormat (msg : String)
  | OperationFailed (msg : String)
  | IoError (msg : String)
  | CsvError (msg : String)
  | Message (msg : String)
deriving DecidableEq

deriving instance DecidableEq for Except

/-- All proper and improper nonempty prefixes of a path, shortest
first: the directories fs::create_dir_all must ensure. -/
def ancestorChains (p : FPath) : List FPath :=
  (List.range p.length).map (fun i => p.take (i + 1))

/-- std fs::create_dir_all: walk the ancestor chain, creating missing
directories; fail when a component already exists as a file.
Directories created before the failing component remain created. -/
def createDirAllAux (fs : FS) : List FPath → Except FileError Unit × FS
  | [] => (.ok (), fs)
  | q :: rest =>
    match lookupFS fs q with
    | some .dir => createDirAllAux fs rest
    | some (.file _) =>
        (.error (.IoError ("Not a directory: " ++ pathDisplay q)), fs)
    | none => createDirAllAux (setFS fs q .dir) rest

def createDirAll (fs : FS) (p : FPath) : Except FileError Unit × FS :=
  createDirAllAux fs (ancestorChains p)

namespace FileHandler

/-- FileHandler::read: NotFound when the path does not exist, then
read_to_string (which requires a regular file with UTF-8 content). -/
def read (p : FPath) (fs : FS) : Except FileError (List Nat) × FS :=
  match lookupFS fs p with
  | none => (.error (.NotFound (pathDisplay p)), fs)
  | some .dir => (.error (.ReadError (pathDisplay p) "Is a directory"), fs)
  | some (.file bs) =>
      if utf8Valid bs then (.ok bs, fs)
      else (.error (.ReadError (pathDisplay p) "invalid UTF-8"), fs)

/-- FileHandler::write: create all missing parent directories, then
fs::write the content (the str argument is modelled as its UTF-8
bytes). fs::write fails when the path is an existing directory. -/
def write (p : FPath) (content : List Nat) (fs : FS) :
    Except FileError Unit × FS :=
  match (match pathParent p with
         | some par => createDirAll fs par
         | none => (.ok (), fs)) with
  | (.error e, fs1) => (.error e, fs1)
  | (.ok (), fs1) =>
    if p = [] then (.error (.WriteError "" "No such file or directory"), fs1)
    else
      match lookupFS fs1 p with
      | some .dir => (.error (.WriteError (pathDisplay p) "Is a directory"), fs1)
      | _ => (.ok (), setFS fs1 p (.file content))

/-- FileHandler::copy: bail NotFound when the source does not exist,
then create the destination parents, then fs::copy (which requires a
regular file as source and not a directory as destination). -/
def copy (src dst : FPath) (fs : FS) : Except FileError Unit × FS :=
  if lookupFS fs src = none then (.error (.NotFound (pathDisplay src)), fs)
  else
    match (match pathParent dst with
           | some par => createDirAll fs par
           | none => (.ok (), fs)) with
    | (.error e, fs1) => (.error e, fs1)
    | (.ok (), fs1) =>
      match lookupFS fs1 src with
      | some (.file c) =>
          match lookupFS fs1 dst with
          | some .dir =>
              (.error (.IoError ("Is a directory: " ++ pathDisplay dst)), fs1)
          | _ => (.ok (), setFS fs1 dst (.file c))
      | _ => (.error (.IoError ("Is a directory: " ++ pathDisplay src)), fs1)

/-- FileHandler::move_file: bail NotFound when the source does not
exist, then create the destination parents, then fs::rename. -/
def move_file (src dst : FPath) (fs : FS) : Except FileError Unit × FS :=
  if lookupFS fs src = none then (.error (.NotFound (pathDisplay src)), fs)
  else
    match (match pathParent dst with
           | some par => createDirAll fs par
           | none => (.ok (), fs)) with
    | (.error e, fs1) => (.error e, fs1)
    | (.ok (), fs1) =>
      match lookupFS fs1 src with
      | some e =>
          match lookupFS fs1 dst with
          | some .dir =>
              (.error (.IoError ("Is a directory: " ++ pathDisplay dst)), fs1)
          | _ => (.ok (), setFS (removeFS fs1 src) dst e)
      | none => (.error (.NotFound (pathDisplay src)), fs1)

/-- FileHandler::delete: Ok false when the path does not exist;
otherwise fs::remove_file, which removes a regular file and fails on a
directory. -/
def delete (p : FPath) (fs : FS) : Except FileError Bool × FS :=
  match lookupFS fs p with
  | none => (.ok false, fs)
  | some (.file _) => (.ok true, removeFS fs p)
  | some .dir => (.error (.IoError ("Is a directory: " ++ pathDisplay p)), fs)

/-- FileHandler::exists (renamed: exists is reserved). -/
def existsPath (p : FPath) (fs : FS) : Bool := (lookupFS fs p).isSome

/-- FileHandler::checksum: NotFound when the path does not exist, read
the whole file as raw bytes, then dispatch on the algorithm name. -/
def checksum (p : FPath) (alg : String) (fs : FS) :
    Except FileError String × FS :=
  match lookupFS fs p with
  | none => (.error (.NotFound (pathDisplay p)), fs)
  | some .dir => (.error (.IoError ("Is a directory: " ++ pathDisplay p)), fs)
  | some (.file bs) =>
    if alg = "md5" then (.ok (md5Hex bs), fs)
    else if alg = "sha1" then (.ok (sha1Hex bs), fs)
    else if alg = "sha256" then (.ok (sha256Hex bs), fs)
    else if alg = "sha512" then (.ok (sha512Hex bs), fs)
    else (.error (.Message ("Unsupported algorithm: " ++ alg)), fs)

end FileHandler

/-! ## CSV reading (csv crate, default non-flexible reader) -/

/-- The csv crate strips a UTF-8 byte-order mark at the start of the
input. -/
def csvStripBom (l : List Nat) : List Nat :=
  match l with
  | 239 :: 187 :: 191 :: rest => rest
  | other => other

/-- The reader states of the csv-core record parser (default
configuration): between records, at the start of a field, inside an
unquoted field, inside a quoted field, and just after a quote inside a
quoted field. -/
inductive CsvPS
  | startRecord
  | startField
  | inField
  | inQuoted
  | quotedEnd

/-- The csv-core record parser in its default configuration: comma
delimiter, double-quote quoting with doubled-quote escapes, records
terminated by CR, LF or CRLF, completely empty lines skipped. It is
lenient: a quote inside an unquoted field is literal, a byte after a
closing quote continues the field unquoted, and an unclosed quote at
end of input just ends the last field. Arguments: state, bytes of the
current field, fields of the current record, remaining input. -/
def csvGo : CsvPS → List Nat → List (List Nat) → List Nat →
    List (List (List Nat))
  | .startRecord, _, _, [] => []
  | .startField, _, r, [] => [r ++ [[]]]
  | .inField, f, r, [] => [r ++ [f]]
  | .inQuoted, f, r, [] => [r ++ [f]]
  | .quotedEnd, f, r, [] => [r ++ [f]]
  | .startRecord, _, _, b :: rest =>
      if b = 10 || b = 13 then csvGo .startRecord [] [] rest
      else if b = 34 then csvGo .inQuoted [] [] rest
      else if b = 44 then csvGo .startField [] [[]] rest
      else csvGo .inField [b] [] rest
  | .startField, _, r, b :: rest =>
      if b = 10 || b = 13 then (r ++ [[]]) :: csvGo .startRecord [] [] rest
      else if b = 34 then csvGo .inQuoted [] r rest
      else if b = 44 then csvGo .startField [] (r ++ [[]]) rest
      else csvGo .inField [b] r rest
  | .inField, f, r, b :: rest =>
      if b = 10 || b = 13 then (r ++ [f]) :: csvGo .startRecord [] [] rest
      else if b = 44 then csvGo .startField [] (r ++ [f]) rest
      else csvGo .inField (f ++ [b]) r rest
  | .inQuoted, f, r, b :: rest =>
      if b = 34 then csvGo .quotedEnd f r rest
      else csvGo .inQuoted (f ++ [b]) r rest
  | .quotedEnd, f, r, b :: rest =>
      if b = 34 then csvGo .inQuoted (f ++ [34]) r rest
      else if b = 44 then csvGo .startField [] (r ++ [f]) rest
      else if b = 10 || b = 13 then (r ++ [f]) :: csvGo .startRecord [] [] rest
      else csvGo .inField (f ++ [b]) r rest

/-- The raw byte records the default csv reader extracts from the
input, header record included. -/
def csvRecords (content : List Nat) : List (List (List Nat)) :=
  csvGo .startRecord [] [] (csvStripBom content)

/-- One record of read_csv: a string-keyed map, modelled as an
association list built by insert-with-overwrite in field order (the
HashMap insert loop of the source: for each field index i, insert
under header i when that header exists). -/
def recInsert (m : List (List Nat × List Nat)) (k v : List Nat) :
    List (List Nat × List Nat) :=
  (k, v) :: m.filter (fun e => e.1 ≠ k)

def mkRecord (headers row : List (List Nat)) :
    List (List Nat × List Nat) :=
  (headers.zip row).foldl (fun m hv => recInsert m hv.1 hv.2) []

/-- The record loop of read_csv: reading a record first enforces the
default non-flexible length check (UnequalLengths as soon as a record
length differs from the header length), then the conversion to a
StringRecord validates every field as UTF-8 (a Utf8 error otherwise);
the ? operator propagates the first error. -/
def readCsvRows (headers : List (List Nat)) :
    List (List (List Nat)) →
      Except FileError (List (List (List Nat × List Nat)))
  | [] => .ok []
  | row :: rest =>
      if row.length = headers.length then
        if row.all utf8Valid then
          match readCsvRows headers rest with
          | .ok rs => .ok (mkRecord headers row :: rs)
          | .error e => .error e
        else .error (.CsvError "invalid utf-8 in record")
      else .error (.CsvError "found record with unequal number of fields")

namespace FileHandler

/-- FileHandler::read_csv: File::open (plain io error when missing, no
NotFound pre-check); the first record, validated as UTF-8, is the
header; every further record of matching arity and valid UTF-8 becomes
a header-keyed map; record iteration stops at the first csv error. -/
def read_csv (p : FPath) (fs : FS) :
    Except FileError (List (List (List Nat × List Nat))) × FS :=
  match lookupFS fs p with
  | none => (.error (.IoError ("No such file or directory: " ++ pathDisplay p)), fs)
  | some .dir => (.error (.IoError ("Is a directory: " ++ pathDisplay p)), fs)
  | some (.file bs) =>
      match csvRecords bs with
      | [] => (.ok [], fs)
      | headers :: rows =>
          if headers.all utf8Valid then (readCsvRows headers rows, fs)
          else (.error (.CsvError "invalid utf-8 in headers"), fs)

end FileHandler

/-! ## Benchmark runner -/

/-- Nanoseconds in one second. -/
def NANOS_PER_SEC : Nat := 1000000000

/-- Durations are modelled as total nanoseconds. -/
abbrev DurationNs := Nat

/-- Rust std Duration Div u32: panics when the divisor is zero
(modelled as none); otherwise integer division on the secs / nanos
representation exactly as std implements it. -/
def durationDivU32 (d : DurationNs) (r : Nat) : Option DurationNs :=
  if r = 0 then none
  else some ((d / NANOS_PER_SEC / r) * NANOS_PER_SEC +
    (d / NANOS_PER_SEC % r) * NANOS_PER_SEC / r + d % NANOS_PER_SEC / r)

/-- The Rust cast `as u32` (truncation mod 2^32). The source divides by
`self.iterations as u32`; with 64-bit usize a nonzero multiple of 2^32
truncates to zero and the Duration division panics. -/
def toU32 (n : Nat) : Nat := n % M32

/-- Duration::as_secs_f64, exact value as a rational. -/
def asSecsRat (d : DurationNs) : ℚ := (d : ℚ) / (NANOS_PER_SEC : ℚ)

/-- Duration::as_millis (integer truncation). -/
def asMillis (d : DurationNs) : Nat := d / 1000000

/-- Duration::as_micros (integer truncation). -/
def asMicros (d : DurationNs) : Nat := d / 1000

/-- Duration::as_secs (integer truncation). -/
def asSecs (d : DurationNs) : Nat := d / NANOS_PER_SEC

structure BenchmarkResult where
  name : String
  iterations : Nat
  total_time : DurationNs
  avg_time : DurationNs
  ops_per_sec : ℚ
deriving DecidableEq

/-- Workload 1. The loop body (string building, uppercasing,
reversing, vowel substitution, joining) only consumes time; its values
are discarded, so the observable outcome is determined by the observed
elapsed duration, which nondeterministic wall-clock timing provides as
a parameter. -/
def benchmark_string_manipulation (iterations : Nat) (elapsed : DurationNs) :
    Option BenchmarkResult :=
  (durationDivU32 elapsed (toU32 iterations)).map (fun avg =>
    { name := "String Manipulation", iterations := iterations,
      total_time := elapsed, avg_time := avg,
      ops_per_sec := (iterations : ℚ) / asSecsRat elapsed })

/-- Workload 2 (vector build, map, retain, sort, reverse, sum;
values discarded). -/
def benchmark_array_operations (iterations : Nat) (elapsed : DurationNs) :
    Option BenchmarkResult :=
  (durationDivU32 elapsed (toU32 iterations)).map (fun avg =>
    { name := "Array Operations", iterations := iterations,
      total_time := elapsed, avg_time := avg,
      ops_per_sec := (iterations : ℚ) / asSecsRat elapsed })

/-- Workload 3, source name benchmark_file_io (renamed here): writes
to a temp file, all write errors swallowed, so again only the elapsed
time is observable. -/
def benchmark_file_workload (iterations : Nat) (elapsed : DurationNs) :
    Option BenchmarkResult :=
  (durationDivU32 elapsed (toU32 iterations)).map (fun avg =>
    { name := "File I/O", iterations := iterations,
      total_time := elapsed, avg_time := avg,
      ops_per_sec := (iterations : ℚ) / asSecsRat elapsed })

/-- Workload 4 (parse and reserialize a fixed JSON document; values
discarded). -/
def benchmark_json_parsing (iterations : Nat) (elapsed : DurationNs) :
    Option BenchmarkResult :=
  (durationDivU32 elapsed (toU32 iterations)).map (fun avg =>
    { name := "JSON Parsing", iterations := iterations,
      total_time := elapsed, avg_time := avg,
      ops_per_sec := (iterations : ℚ) / asSecsRat elapsed })

/-- Workload 5 (hash map build, key sort, value sum, filter; values
discarded). -/
def benchmark_hash_operations (iterations : Nat) (elapsed : DurationNs) :
    Option BenchmarkResult :=
  (durationDivU32 elapsed (toU32 iterations)).map (fun avg =>
    { name := "Hash Operations", iterations := iterations,
      total_time := elapsed, avg_time := avg,
      ops_per_sec := (iterations : ℚ) / asSecsRat elapsed })

/-- BenchmarkCommand::run_benchmarks: the fixed battery of five
workloads, in source order; the elapsed wall-clock durations of the
five workloads are the nondeterministic inputs. A panic in any
workload (Duration division by zero iterations) aborts the run. -/
def run_benchmarks (iterations : Nat) (elapsed : Fin 5 → DurationNs) :
    Option (List BenchmarkResult) := do
  let r0 ← benchmark_string_manipulation iterations (elapsed 0)
  let r1 ← benchmark_array_operations iterations (elapsed 1)
  let r2 ← benchmark_file_workload iterations (elapsed 2)
  let r3 ← benchmark_json_parsing iterations (elapsed 3)
  let r4 ← benchmark_hash_operations iterations (elapsed 4)
  pure [r0, r1, r2, r3, r4]

/-! ## Fixed-precision decimal formatting (Rust format with .k precision) -/

def digitChar10 (m : Nat) : Char :=
  match m % 10 with
  | 0 => '0' | 1 => '1' | 2 => '2' | 3 => '3' | 4 => '4'
  | 5 => '5' | 6 => '6' | 7 => '7' | 8 => '8' | _ => '9'

/-- Exactly k decimal digits of m (mod 10 ^ k), most significant
first, with leading zeros. -/
def digitsFixed : Nat → Nat → List Char
  | 0, _ => []
  | k + 1, m => digitsFixed k (m / 10) ++ [digitChar10 m]

/-- Round to the nearest integer, ties to even: the rounding Rust
float formatting applies to the exact decimal value. -/
def roundHalfEven (q : ℚ) : ℤ :=
  let n := ⌊q⌋
  if q - (n : ℚ) < 1 / 2 then n
  else if 1 / 2 < q - (n : ℚ) then n + 1
  else if n % 2 = 0 then n else n + 1

/-- Rust fixed-precision formatting of an (exact-rational-valued)
float with k decimal places. -/
def fmtFixed (q : ℚ) (k : Nat) : String :=
  let m := roundHalfEven (q * (10 : ℚ) ^ k)
  let sign := if m < 0 then "-" else ""
  let n := m.natAbs
  if k = 0 then sign ++ toString (n / 10 ^ k)
  else sign ++ toString (n / 10 ^ k) ++ "." ++
    String.mk (digitsFixed k (n % 10 ^ k))

/-- The number of characters after the last decimal point of a
rendered number (none when there is no point). -/
def decimalsAfter (s : String) : Option Nat :=
  if '.' ∈ s.data then
    some (s.data.reverse.takeWhile (fun c => c ≠ '.')).length
  else none

/-! ## Benchmark reporting -/

def repeatStr (s : String) (n : Nat) : String :=
  String.join (List.replicate n s)

/-- Rust center alignment: pad to the width, extra padding on the
right. -/
def centerPad (s : String) (w : Nat) : String :=
  let pad := w - s.length
  String.mk (List.replicate (pad / 2) ' ') ++ s ++
    String.mk (List.replicate (pad - pad / 2) ' ')

/-- format_duration: human-friendly duration by magnitude. -/
def format_duration (d : DurationNs) : String :=
  if 0 < asSecs d then fmtFixed (asSecsRat d) 2 ++ " s"
  else if 0 < asMillis d then fmtFixed ((asMillis d : ℚ)) 2 ++ " ms"
  else fmtFixed ((asMicros d : ℚ)) 2 ++ " μs"

/-- output_console: the sequence of printed strings, one entry per
println call (a leading newline inside a println stays inside its
entry). -/
def output_console (results : List BenchmarkResult) : List String :=
  ["\n" ++ repeatStr "=" 60,
   centerPad "BENCHMARK RESULTS" 60,
   repeatStr "=" 60] ++
  (results.map (fun r =>
    ["\n" ++ r.name ++ ":",
     "  Iterations:     " ++ toString r.iterations,
     "  Total time:     " ++ format_duration r.total_time,
     "  Avg time/op:    " ++ format_duration r.avg_time,
     "  Ops/second:     " ++ fmtFixed r.ops_per_sec 2])).flatten ++
  ["\n" ++ repeatStr "=" 60,
   "Total benchmark time: " ++
     format_duration (results.map (fun r => r.total_time)).sum,
   repeatStr "=" 60]

/-- One data row of output_csv: name, iterations, total seconds to 6
places, average seconds to 9 places, ops per second to 2 places. -/
def csvLine (r : BenchmarkResult) : String :=
  r.name ++ "," ++ toString r.iterations ++ "," ++
    fmtFixed (asSecsRat r.total_time) 6 ++ "," ++
    fmtFixed (asSecsRat r.avg_time) 9 ++ "," ++
    fmtFixed r.ops_per_sec 2

/-- output_csv: a header row, then one row per workload. -/
def output_csv (results : List BenchmarkResult) : List String :=
  "Benchmark,Iterations,Total Time (s),Avg Time (s),Ops/Second" ::
    results.map csvLine

/-- A JSON value, the level at which output_json is modelled (the
pretty printer applied to it is external library code). -/
inductive JsonVal
  | str (s : String)
  | num (q : ℚ)
  | arr (elems : List JsonVal)
  | obj (fields : List (String × JsonVal))

/-- output_json: the document handed to the serializer. The timestamp
(chrono Utc::now), platform and compile-time rust version are
nondeterministic / environment inputs, passed as parameters. -/
def output_json (timestamp platform rustVersion : String)
    (results : List BenchmarkResult) : JsonVal :=
  .obj
    [("timestamp", .str timestamp),
     ("platform", .str platform),
     ("ruby_version", .str ("Rust " ++ rustVersion)),
     ("benchmarks", .arr (results.map (fun r =>
        .obj
          [("name", .str r.name),
           ("iterations", .num (r.iterations : ℚ)),
           ("total_time_ms", .num (asMillis r.total_time : ℚ)),
           ("avg_time_ms", .num ((asMicros r.avg_time : ℚ) / 1000)),
           ("ops_per_second", .num r.ops_per_sec)])))]

/-- Which report printer execute dispatched to, together with the data
it printed. -/
inductive BenchReport
  | jsonR (doc : JsonVal)
  | csvR (lines : List String)
  | consoleR (lines : List String)

structure BenchmarkCommand where
  iterations : Nat
  output_format : String
  verbose : Bool

/-- BenchmarkCommand::execute: optional verbose line, run the suite,
dispatch on the format string with console as the fallback arm, and
return Ok. A panic inside run_benchmarks (when the u32 truncation of
the iteration count is zero) is modelled as none. -/
def BenchmarkCommand.execute (cmd : BenchmarkCommand)
    (elapsed : Fin 5 → DurationNs) (timestamp platform rustVersion : String) :
    Option (Except String Unit × Option String × BenchReport) :=
  let vline :=
    if cmd.verbose then
      some ("Running benchmarks with " ++ toString cmd.iterations ++
        " iterations...")
    else none
  (run_benchmarks cmd.iterations elapsed).map (fun results =>
    (Except.ok (), vline,
     if cmd.output_format = "json" then
       .jsonR (output_json timestamp platform rustVersion results)
     else if cmd.output_format = "csv" then .csvR (output_csv results)
     else .consoleR (output_console results)))

/-! ## Concrete byte fixtures used by witnesses and counterexamples -/

/-- The sixteen characters hexOfBytes can emit: lowercase hex. -/
def lowerHexChars : List Char := "0123456789abcdef".data

/-- First message of a public MD5 collision pair (two 64-byte blocks). -/
def md5CollisionA : List Nat :=
  [209, 49, 221, 2, 197, 230, 238, 196, 105, 61, 154, 6, 152, 175, 249, 92,
   47, 202, 181, 135, 18, 70, 126, 171, 64, 4, 88, 62, 184, 251, 127, 137,
   85, 173, 52, 6, 9, 244, 179, 2, 131, 228, 136, 131, 37, 113, 65, 90,
   8, 81, 37, 232, 247, 205, 201, 159, 217, 29, 189, 242, 128, 55, 60, 91,
   216, 130, 62, 49, 86, 52, 143, 91, 174, 109, 172, 212, 54, 201, 25, 198,
   221, 83, 226, 180, 135, 218, 3, 253, 2, 57, 99, 6, 210, 72, 205, 160,
   233, 159, 51, 66, 15, 87, 126, 232, 206, 84, 182, 112, 128, 168, 13, 30,
   198, 152, 33, 188, 182, 168, 131, 147, 150, 249, 101, 43, 111, 247, 42, 112]

/-- Second message of the collision pair: six bytes differ from the
first message. -/
def md5CollisionB : List Nat :=
  [209, 49, 221, 2, 197, 230, 238, 196, 105, 61, 154, 6, 152, 175, 249, 92,
   47, 202, 181, 7, 18, 70, 126, 171, 64, 4, 88, 62, 184, 251, 127, 137,
   85, 173, 52, 6, 9, 244, 179, 2, 131, 228, 136, 131, 37, 241, 65, 90,
   8, 81, 37, 232, 247, 205, 201, 159, 217, 29, 189, 114, 128, 55, 60, 91,
   216, 130, 62, 49, 86, 52, 143, 91, 174, 109, 172, 212, 54, 201, 25, 198,
   221, 83, 226, 52, 135, 218, 3, 253, 2, 57, 99, 6, 210, 72, 205, 160,
   233, 159, 51, 66, 15, 87, 126, 232, 206, 84, 182, 112, 128, 40, 13, 30,
   198, 152, 33, 188, 182, 168, 131, 147, 150, 249, 101, 171, 111, 247, 42, 112]

def md5CollisionFS : FS :=
  [(["a.bin"], .file md5CollisionA), (["b.bin"], .file md5CollisionB)]

def helloWorldBytes : List Nat :=
  [72, 101, 108, 108, 111, 32, 87, 111, 114, 108, 100]

def helloWorldFS : FS := [(["checksum.txt"], .file helloWorldBytes)]

/-! ## Filesystem lemmas -/

theorem lookupFS_setFS_self (fs : FS) (p : FPath) (e : FsEntry) :
    lookupFS (setFS fs p e) p = some e := by
  simp [setFS, lookupFS]

theorem lookupFS_removeFS_self (fs : FS) (p : FPath) :
    lookupFS (removeFS fs p) p = none := by
  induction fs with
  | nil => rfl
  | cons q rest ih =>
      rcases q with ⟨qp, qe⟩
      by_cases h : qp = p
      · simpa [removeFS, List.filter_cons, h] using ih
      · simpa [removeFS, List.filter_cons, h, lookupFS] using ih

/-- C4: copy and move_file on a nonexistent source both fail with
NotFound and leave the filesystem exactly as it was (in particular no
destination parent directories are created). -/
theorem C4_copy_move_missing_source (fs : FS) (src dst : FPath)
    (h : lookupFS fs src = none) :
    FileHandler.copy src dst fs =
        (.error (.NotFound (pathDisplay src)), fs) ∧
      FileHandler.move_file src dst fs =
        (.error (.NotFound (pathDisplay src)), fs) := by
  constructor <;> simp [FileHandler.copy, FileHandler.move_file, h]

theorem C4_witness :
    FileHandler.copy [".", "missing.txt"] ["out", "deep", "c.txt"] [] =
        (.error (.NotFound (pathDisplay [".", "missing.txt"])), []) ∧
      FileHandler.move_file [".", "missing.txt"] ["out", "deep", "c.txt"] [] =
        (.error (.NotFound (pathDisplay [".", "missing.txt"])), []) :=
  C4_copy_move_missing_source [] [".", "missing.txt"] ["out", "deep", "c.txt"] rfl

/-- C7: delete on a nonexistent path returns false without an error;
delete on an existing regular file returns true, and an exists check
on that path afterwards returns false. -/
theorem C7_delete_contract (fs : FS) (p : FPath) :
    (lookupFS fs p = none → FileHandler.delete p fs = (.ok false, fs)) ∧
      (∀ c, lookupFS fs p = some (.file c) →
        FileHandler.delete p fs = (.ok true, removeFS fs p) ∧
          FileHandler.existsPath p (removeFS fs p) = false) := by
  refine ⟨fun h => ?_, fun c h => ⟨?_, ?_⟩⟩
  · simp [FileHandler.delete, h]
  · simp [FileHandler.delete, h]
  · simp [FileHandler.existsPath, lookupFS_removeFS_self]

theorem C7_witness :
    FileHandler.delete ["gone.txt"] [(["keep.txt"], .file [104, 105])] =
        (.ok false, [(["keep.txt"], .file [104, 105])]) ∧
      FileHandler.delete ["keep.txt"] [(["keep.txt"], .file [104, 105])] =
        (.ok true, removeFS [(["keep.txt"], .file [104, 105])] ["keep.txt"]) ∧
      FileHandler.existsPath ["keep.txt"]
          (removeFS [(["keep.txt"], .file [104, 105])] ["keep.txt"]) = false :=
  ⟨(C7_delete_contract [(["keep.txt"], .file [104, 105])] ["gone.txt"]).1 rfl,
   ((C7_delete_contract [(["keep.txt"], .file [104, 105])] ["keep.txt"]).2
      [104, 105] rfl).1,
   ((C7_delete_contract [(["keep.txt"], .file [104, 105])] ["keep.txt"]).2
      [104, 105] rfl).2⟩

/-- C10: delete on an existing directory returns neither boolean: the
file-removal primitive fails on a directory, so delete propagates an
error and the filesystem is unchanged. -/
theorem C10_delete_directory_error (fs : FS) (p : FPath)
    (h : lookupFS fs p = some .dir) :
    FileHandler.delete p fs =
      (.error (.IoError ("Is a directory: " ++ pathDisplay p)), fs) := by
  simp [FileHandler.delete, h]

theorem C10_witness :
    FileHandler.delete ["some", "d"] [(["some", "d"], .dir)] =
      (.error (.IoError ("Is a directory: " ++ pathDisplay ["some", "d"])),
        [(["some", "d"], .dir)]) :=
  C10_delete_directory_error [(["some", "d"], .dir)] ["some", "d"] rfl

/-- C5: writing string content (as its UTF-8 bytes) to a path on which
write succeeds, then reading that path, returns exactly the written
bytes. -/
theorem C5_write_read_roundtrip (fs fs1 : FS) (p : FPath)
    (content : List Nat) (hutf : utf8Valid content = true)
    (hw : FileHandler.write p content fs = (.ok (), fs1)) :
    FileHandler.read p fs1 = (.ok content, fs1) := by
  unfold FileHandler.write at hw
  split at hw
  · simp at hw
  · split at hw
    · simp at hw
    · split at hw
      · simp at hw
      · simp only [Prod.mk.injEq] at hw
        obtain ⟨-, hfs⟩ := hw
        subst hfs
        simp [FileHandler.read, lookupFS_setFS_self, hutf]

theorem C5_witness :
    FileHandler.read ["t.txt"]
        [(["t.txt"], .file [72, 101, 108, 108, 111, 44, 32, 87, 111, 114, 108, 100, 33])] =
      (.ok [72, 101, 108, 108, 111, 44, 32, 87, 111, 114, 108, 100, 33],
        [(["t.txt"], .file [72, 101, 108, 108, 111, 44, 32, 87, 111, 114, 108, 100, 33])]) :=
  C5_write_read_roundtrip [] _ ["t.txt"]
    [72, 101, 108, 108, 111, 44, 32, 87, 111, 114, 108, 100, 33]
    (by decide) (by decide)

/-! ## Known test vectors for the embedded hash algorithms, the UTF-8 validator and the csv reader -/

example : md5Hex [] = "d41d8cd98f00b204e9800998ecf8427e" := by decide

example : md5Hex [97, 98, 99] = "900150983cd24fb0d6963f7d28e17f72" := by
  decide

example : sha1Hex [97, 98, 99] = "a9993e364706816aba3e25717850c26c9cd0d89d" := by
  decide

example :
    sha256Hex [97, 98, 99] =
      "ba7816bf8f01cfea414140de5dae2223b00361a396177a9cb410ff61f20015ad" := by
  decide

example :
    sha256Hex [] =
      "e3b0c44298fc1c149afbf4c8996fb92427ae41e4649b934ca495991b7852b855" := by
  decide

example :
    sha512Hex [97, 98, 99] =
      "ddaf35a193617abacc417349ae20413112e6fa4e89a97ea20a9eeee64b55d39a2192992a274fc1a836ba3c23a3feebbd454d4423643ce80e2a9ac94fa54ca49f" := by
  decide

example : utf8Valid [72, 101, 108, 108, 111] = true := by decide

example : utf8Valid [209, 49] = false := by decide

/-! ## Benchmark-suite lemmas -/

/-- With a nonzero iteration count the suite completes and yields the
five results of source order, each carrying its workload elapsed
time. -/
theorem run_benchmarks_eq_some (N : Nat) (elapsed : Fin 5 → DurationNs)
    (hN : toU32 N ≠ 0) :
    run_benchmarks N elapsed = some
      [⟨"String Manipulation", N, elapsed 0,
          (durationDivU32 (elapsed 0) (toU32 N)).getD 0, (N : ℚ) / asSecsRat (elapsed 0)⟩,
       ⟨"Array Operations", N, elapsed 1,
          (durationDivU32 (elapsed 1) (toU32 N)).getD 0, (N : ℚ) / asSecsRat (elapsed 1)⟩,
       ⟨"File I/O", N, elapsed 2,
          (durationDivU32 (elapsed 2) (toU32 N)).getD 0, (N : ℚ) / asSecsRat (elapsed 2)⟩,
       ⟨"JSON Parsing", N, elapsed 3,
          (durationDivU32 (elapsed 3) (toU32 N)).getD 0, (N : ℚ) / asSecsRat (elapsed 3)⟩,
       ⟨"Hash Operations", N, elapsed 4,
          (durationDivU32 (elapsed 4) (toU32 N)).getD 0, (N : ℚ) / asSecsRat (elapsed 4)⟩] := by
  simp [run_benchmarks, benchmark_string_manipulation,
    benchmark_array_operations, benchmark_file_workload,
    benchmark_json_parsing, benchmark_hash_operations, durationDivU32, hN,
    Option.bind]

theorem asSecsRat_pos (d : DurationNs) (hd : 0 < d) : 0 < asSecsRat d := by
  unfold asSecsRat
  have h1 : (0 : ℚ) < (d : ℚ) := by exact_mod_cast hd
  have h2 : (0 : ℚ) < (NANOS_PER_SEC : ℚ) := by norm_num [NANOS_PER_SEC]
  exact div_pos h1 h2

/-- C1 amended: for every iteration count N at least 1 whose u32
truncation is nonzero, and positive observed workload durations, the
suite yields exactly five results, each with iterations = N, positive
ops_per_sec and nonnegative total_time. (At N a nonzero multiple of
2^32 the claim fails: see the counterexample.) -/
theorem C1_run_benchmarks_five_results (N : Nat) (elapsed : Fin 5 → DurationNs)
    (hN : 1 ≤ N) (hcast : toU32 N ≠ 0) (hpos : ∀ i, 0 < elapsed i) :
    ∃ results, run_benchmarks N elapsed = some results ∧
      results.length = 5 ∧
      ∀ r ∈ results, r.iterations = N ∧ 0 < r.ops_per_sec ∧
        0 ≤ r.total_time := by
  refine ⟨_, run_benchmarks_eq_some N elapsed hcast, rfl, ?_⟩
  have hN0 : (0 : ℚ) < (N : ℚ) := by exact_mod_cast hN
  have hops : ∀ i : Fin 5, 0 < (N : ℚ) / asSecsRat (elapsed i) := fun i =>
    div_pos hN0 (asSecsRat_pos (elapsed i) (hpos i))
  intro r hr
  simp only [List.mem_cons, List.not_mem_nil, or_false] at hr
  rcases hr with h | h | h | h | h <;> subst h <;>
    exact ⟨rfl, hops _, Nat.zero_le _⟩

theorem C1_witness :
    ∃ results, run_benchmarks 3 (fun _ => 7) = some results ∧
      results.length = 5 ∧
      ∀ r ∈ results, r.iterations = 3 ∧ 0 < r.ops_per_sec ∧
        0 ≤ r.total_time :=
  C1_run_benchmarks_five_results 3 (fun _ => 7) (by norm_num) (by decide)
    (fun _ => by norm_num)

/-- C1 counterexample: 2^32 is a valid 64-bit iteration count at
least 1, but its u32 truncation is zero, so the first workload panics
in the Duration division and the suite yields no results at all. -/
theorem C1_counterexample :
    1 ≤ 4294967296 ∧
      run_benchmarks 4294967296 (fun _ => 1000000) = none :=
  ⟨by norm_num, rfl⟩

/-- C2 counterexample: at N = 0 the suite does not complete (and does
not report zero throughput): the very first workload divides its
elapsed Duration by zero iterations, which panics. -/
theorem C2_counterexample :
    run_benchmarks 0 (fun _ => 1000000) = none ∧
      durationDivU32 1000000 0 = none := ⟨rfl, rfl⟩

/-- C2 amended: the component has no N = 0 special case; the run
panics exactly when the u32 truncation of N is zero (in particular at
N = 0), so callers must guarantee a nonzero truncated count. -/
theorem C2_no_zero_iterations_special_case (N : Nat)
    (elapsed : Fin 5 → DurationNs) :
    run_benchmarks N elapsed = none ↔ toU32 N = 0 := by
  constructor
  · intro h
    by_contra hN
    rw [run_benchmarks_eq_some N elapsed hN] at h
    exact Option.noConfusion h
  · intro h
    simp [run_benchmarks, benchmark_string_manipulation, durationDivU32, h,
      Option.bind]

/-- C9: execute never returns an error for any output-format string
(it always returns Ok), and every format other than json and csv
falls back to the console report. -/
theorem C9_execute_unknown_format_console (fmt : String) (N : Nat)
    (elapsed : Fin 5 → DurationNs) (verbose : Bool)
    (ts pf rv : String) (hN : toU32 N ≠ 0) :
    ∃ results rep,
      run_benchmarks N elapsed = some results ∧
      BenchmarkCommand.execute ⟨N, fmt, verbose⟩ elapsed ts pf rv =
        some (Except.ok (),
          (if verbose then
            some ("Running benchmarks with " ++ toString N ++ " iterations...")
          else none), rep) ∧
      (fmt ≠ "json" → fmt ≠ "csv" →
        rep = BenchReport.consoleR (output_console results)) := by
  obtain ⟨results, hspec⟩ : ∃ rs, run_benchmarks N elapsed = some rs :=
    ⟨_, run_benchmarks_eq_some N elapsed hN⟩
  refine ⟨results,
    (if fmt = "json" then BenchReport.jsonR (output_json ts pf rv results)
     else if fmt = "csv" then BenchReport.csvR (output_csv results)
     else BenchReport.consoleR (output_console results)), hspec, ?_, ?_⟩
  · unfold BenchmarkCommand.execute
    rw [hspec]
    rfl
  · intro h1 h2
    simp [h1, h2]

theorem C9_witness :
    ∃ results rep,
      run_benchmarks 1 (fun _ => 7) = some results ∧
      BenchmarkCommand.execute ⟨1, "xml", false⟩ (fun _ => 7) "ts" "linux" "1.75" =
        some (Except.ok (),
          (if false then
            some ("Running benchmarks with " ++ toString 1 ++ " iterations...")
          else none), rep) ∧
      ("xml" ≠ "json" → "xml" ≠ "csv" →
        rep = BenchReport.consoleR (output_console results)) :=
  C9_execute_unknown_format_console "xml" 1 (fun _ => 7) false "ts" "linux"
    "1.75" (by decide)

/-! ## CSV lemmas -/

/-- When every row has exactly the header arity and valid UTF-8
fields, the record loop succeeds and produces one header-keyed map per
row. -/
theorem readCsvRows_ok (headers : List (List Nat))
    (rows : List (List (List Nat)))
    (h : ∀ r ∈ rows, r.length = headers.length ∧ r.all utf8Valid = true) :
    readCsvRows headers rows = .ok (rows.map (mkRecord headers)) := by
  induction rows with
  | nil => rfl
  | cons row rest ih =>
      obtain ⟨hrow, hu⟩ := h row (by simp)
      have ih' := ih (fun r hr => h r (by simp [hr]))
      simp [readCsvRows, hrow, hu, ih']

/-- C3 amended: the first record (validated as UTF-8) is the header
and each further record of matching arity with valid UTF-8 fields
becomes a header-to-field map, quoting interpreted by the default
reader; but a ragged row does not fill keys by omission: the default
csv reader rejects it, and read_csv returns that error (see the
counterexample). -/
theorem C3_read_csv_header_mapping (fs : FS) (p : FPath)
    (content : List Nat) (headers : List (List Nat))
    (rows : List (List (List Nat)))
    (hf : lookupFS fs p = some (.file content))
    (hp : csvRecords content = headers :: rows)
    (hh : headers.all utf8Valid = true)
    (hw : ∀ r ∈ rows, r.length = headers.length ∧ r.all utf8Valid = true) :
    FileHandler.read_csv p fs =
      (.ok (rows.map (mkRecord headers)), fs) := by
  simp [FileHandler.read_csv, hf, hp, hh, readCsvRows_ok headers rows hw]

/-- C3 counterexample: a CSV file with header a,b and the single
ragged data row 1 makes read_csv return an error instead of a record
with the missing key omitted. -/
theorem C3_counterexample :
    FileHandler.read_csv ["data.csv"]
        [(["data.csv"], .file [97, 44, 98, 10, 49, 10])] =
      (.error (.CsvError "found record with unequal number of fields"),
        [(["data.csv"], .file [97, 44, 98, 10, 49, 10])]) := by decide

theorem C3_witness :
    FileHandler.read_csv ["data.csv"]
        [(["data.csv"],
          .file [97, 44, 98, 10, 34, 49, 34, 44, 50, 10, 51, 44, 52, 10])] =
      (.ok ([[[49], [50]], [[51], [52]]].map (mkRecord [[97], [98]])),
        [(["data.csv"],
          .file [97, 44, 98, 10, 34, 49, 34, 44, 50, 10, 51, 44, 52, 10])]) :=
  C3_read_csv_header_mapping _ _ _ [[97], [98]] [[[49], [50]], [[51], [52]]]
    rfl (by decide) (by decide) (by decide)

/-! ## Formatting lemmas -/

theorem digitsFixed_length (k : Nat) : ∀ m, (digitsFixed k m).length = k := by
  induction k with
  | zero => intro m; rfl
  | succ k ih => intro m; simp [digitsFixed, ih]

theorem digitChar10_ne_dot (m : Nat) : digitChar10 m ≠ '.' := by
  unfold digitChar10
  split <;> decide

theorem digitsFixed_no_dot (k : Nat) :
    ∀ m, ∀ c ∈ digitsFixed k m, c ≠ '.' := by
  induction k with
  | zero => intro m c hc; simp [digitsFixed] at hc
  | succ k ih =>
      intro m c hc
      simp only [digitsFixed, List.mem_append, List.mem_singleton] at hc
      rcases hc with h | h
      · exact ih _ c h
      · subst h; exact digitChar10_ne_dot m

theorem takeWhile_append_stop {α : Type} (p : α → Bool) (xs ys : List α)
    (y : α) (hxs : ∀ x ∈ xs, p x = true) (hy : p y = false) :
    (xs ++ y :: ys).takeWhile p = xs := by
  induction xs with
  | nil => simp [List.takeWhile_cons, hy]
  | cons x xs ih =>
      have hx : p x = true := hxs x (by simp)
      simp [List.takeWhile_cons, hx,
        ih (fun z hz => hxs z (by simp [hz]))]

/-- The digits after the final point of a string of the shape
a ++ "." ++ digits are exactly those digits. -/
theorem decimalsAfter_append_point (a : String) (l : List Char)
    (hl : ∀ c ∈ l, c ≠ '.') :
    decimalsAfter (a ++ "." ++ String.mk l) = some l.length := by
  unfold decimalsAfter
  have hdata : (a ++ "." ++ String.mk l).data = a.data ++ '.' :: l := by
    simp [String.data_append]
  rw [hdata]
  have hmem : '.' ∈ a.data ++ '.' :: l := by simp
  rw [if_pos hmem]
  have hrev : (a.data ++ '.' :: l).reverse =
      l.reverse ++ '.' :: a.data.reverse := by
    simp
  rw [hrev, takeWhile_append_stop _ _ _ _
    (fun x hx => decide_eq_true (hl x (List.mem_reverse.mp hx)))
    (by decide)]
  simp

theorem decimalsAfter_fmtFixed (q : ℚ) (k : Nat) (hk : k ≠ 0) :
    decimalsAfter (fmtFixed q k) = some k := by
  unfold fmtFixed
  simp only [if_neg hk]
  rw [decimalsAfter_append_point _ _ (digitsFixed_no_dot k _),
    digitsFixed_length]

/-- C8: the CSV report is the header row followed by exactly one row
per workload; each row is name, iterations, total seconds, average
seconds and ops per second, with 6, 9 and 2 digits after the decimal
point respectively. -/
theorem C8_output_csv_format (results : List BenchmarkResult) :
    output_csv results =
        "Benchmark,Iterations,Total Time (s),Avg Time (s),Ops/Second" ::
          results.map csvLine ∧
      (output_csv results).length = results.length + 1 ∧
      ∀ r ∈ results,
        csvLine r = r.name ++ "," ++ toString r.iterations ++ "," ++
            fmtFixed (asSecsRat r.total_time) 6 ++ "," ++
            fmtFixed (asSecsRat r.avg_time) 9 ++ "," ++
            fmtFixed r.ops_per_sec 2 ∧
          decimalsAfter (fmtFixed (asSecsRat r.total_time) 6) = some 6 ∧
          decimalsAfter (fmtFixed (asSecsRat r.avg_time) 9) = some 9 ∧
          decimalsAfter (fmtFixed r.ops_per_sec 2) = some 2 := by
  refine ⟨rfl, by simp [output_csv], fun r _ => ⟨rfl, ?_, ?_, ?_⟩⟩
  · exact decimalsAfter_fmtFixed _ 6 (by decide)
  · exact decimalsAfter_fmtFixed _ 9 (by decide)
  · exact decimalsAfter_fmtFixed _ 2 (by decide)

theorem C8_witness :
    csvLine ⟨"String Manipulation", 10, 123456789, 12345678, 81⟩ =
        "String Manipulation" ++ "," ++ toString 10 ++ "," ++
          fmtFixed (asSecsRat 123456789) 6 ++ "," ++
          fmtFixed (asSecsRat 12345678) 9 ++ "," ++ fmtFixed (81 : ℚ) 2 ∧
      decimalsAfter (fmtFixed (asSecsRat 123456789) 6) = some 6 ∧
      decimalsAfter (fmtFixed (asSecsRat 12345678) 9) = some 9 ∧
      decimalsAfter (fmtFixed (81 : ℚ) 2) = some 2 :=
  (C8_output_csv_format
      [⟨"String Manipulation", 10, 123456789, 12345678, 81⟩]).2.2
    ⟨"String Manipulation", 10, 123456789, 12345678, 81⟩ (by simp)

/-! ## Checksum lemmas -/

theorem leBytes_length (w : Nat) : ∀ x, (leBytes w x).length = w := by
  induction w with
  | zero => intro x; rfl
  | succ w ih => intro x; simp [leBytes, ih]

theorem beBytes_length (w : Nat) : ∀ x, (beBytes w x).length = w := by
  induction w with
  | zero => intro x; rfl
  | succ w ih => intro x; simp [beBytes, ih]

theorem hexOfBytes_length (bs : List Nat) :
    (hexOfBytes bs).length = 2 * bs.length := by
  unfold hexOfBytes
  show ((bs.map _).flatten).length = 2 * bs.length
  induction bs with
  | nil => rfl
  | cons b rest ih =>
      simp only [List.map_cons, List.flatten_cons, List.length_append,
        List.length_cons, List.length_nil, ih]
      omega

theorem hexDigitChar_mem_lowerHex (n : Nat) (h : n < 16) :
    hexDigitChar n ∈ lowerHexChars := by
  interval_cases n <;> decide

theorem hexOfBytes_chars (bs : List Nat) :
    ∀ c ∈ (hexOfBytes bs).data, c ∈ lowerHexChars := by
  unfold hexOfBytes
  show ∀ c ∈ (bs.map _).flatten, _
  induction bs with
  | nil => intro c hc; simp at hc
  | cons b rest ih =>
      intro c hc
      simp only [List.map_cons, List.flatten_cons, List.cons_append,
        List.nil_append, List.mem_cons] at hc
      rcases hc with h | h | h
      · subst h
        exact hexDigitChar_mem_lowerHex _ (Nat.mod_lt _ (by norm_num))
      · subst h
        exact hexDigitChar_mem_lowerHex _ (Nat.mod_lt _ (by norm_num))
      · exact ih c h

theorem md5Digest_length (msg : List Nat) : (md5Digest msg).length = 16 := by
  unfold md5Digest
  simp [List.length_append, leBytes_length]

theorem sha256Round_length (W : List Nat) (st : List Nat) (i : Nat) :
    (sha256Round W st i).length = st.length := by
  unfold sha256Round
  split <;> simp_all

theorem foldl_sha256Round_length (W : List Nat) (l : List Nat) :
    ∀ st, (List.foldl (sha256Round W) st l).length = st.length := by
  induction l with
  | nil => intro st; rfl
  | cons i rest ih =>
      intro st
      rw [List.foldl_cons, ih, sha256Round_length]

theorem sha256Block_length (st block : List Nat) :
    (sha256Block st block).length = st.length := by
  simp [sha256Block, List.length_zipWith, foldl_sha256Round_length]

theorem foldl_sha256Block_length (blocks : List (List Nat)) :
    ∀ st, (List.foldl sha256Block st blocks).length = st.length := by
  induction blocks with
  | nil => intro st; rfl
  | cons b rest ih =>
      intro st
      rw [List.foldl_cons, ih, sha256Block_length]

theorem flatten_map_beBytes_length (w : Nat) (st : List Nat) :
    ((st.map (beBytes w)).flatten).length = w * st.length := by
  induction st with
  | nil => simp
  | cons x rest ih =>
      simp only [List.map_cons, List.flatten_cons, List.length_append,
        beBytes_length, ih, List.length_cons]
      ring

theorem sha256Digest_length (msg : List Nat) :
    (sha256Digest msg).length = 32 := by
  unfold sha256Digest
  simp only [flatten_map_beBytes_length, foldl_sha256Block_length]
  rfl

/-- C6 amended: sha256 checksums are 64-character lowercase hex
strings, md5 checksums are 32 characters, and files with identical
content always give identical checksums; but distinct contents can
collide for md5 (see the counterexample), so changing the content does
not always change the checksum. -/
theorem C6_checksum_properties (fs : FS) (p : FPath) (c : List Nat)
    (h : lookupFS fs p = some (.file c)) :
    FileHandler.checksum p "sha256" fs = (.ok (sha256Hex c), fs) ∧
      (sha256Hex c).length = 64 ∧
      (∀ ch ∈ (sha256Hex c).data, ch ∈ lowerHexChars) ∧
      FileHandler.checksum p "md5" fs = (.ok (md5Hex c), fs) ∧
      (md5Hex c).length = 32 ∧
      (∀ ch ∈ (md5Hex c).data, ch ∈ lowerHexChars) ∧
      (∀ fs2 q, lookupFS fs2 q = some (.file c) →
        FileHandler.checksum q "sha256" fs2 = (.ok (sha256Hex c), fs2) ∧
          FileHandler.checksum q "md5" fs2 = (.ok (md5Hex c), fs2)) := by
  refine ⟨by simp [FileHandler.checksum, h],
    ?_, hexOfBytes_chars _,
    by simp [FileHandler.checksum, h],
    ?_, hexOfBytes_chars _,
    fun fs2 q h2 => ⟨by simp [FileHandler.checksum, h2],
      by simp [FileHandler.checksum, h2]⟩⟩
  · unfold sha256Hex
    rw [hexOfBytes_length, sha256Digest_length]
  · unfold md5Hex
    rw [hexOfBytes_length, md5Digest_length]

/-- C6 counterexample: two files whose contents differ have the same
md5 checksum, so changing content does not always change the
checksum. -/
theorem C6_counterexample :
    md5CollisionA ≠ md5CollisionB ∧
      FileHandler.checksum ["a.bin"] "md5" md5CollisionFS =
        (.ok "79054025255fb1a26e4bc422aef54eb4", md5CollisionFS) ∧
      FileHandler.checksum ["b.bin"] "md5" md5CollisionFS =
        (.ok "79054025255fb1a26e4bc422aef54eb4", md5CollisionFS) :=
  ⟨by decide, by decide, by decide⟩

theorem C6_witness :
    FileHandler.checksum ["checksum.txt"] "sha256" helloWorldFS =
        (.ok (sha256Hex helloWorldBytes), helloWorldFS) ∧
      (sha256Hex helloWorldBytes).length = 64 ∧
      (∀ ch ∈ (sha256Hex helloWorldBytes).data, ch ∈ lowerHexChars) ∧
      FileHandler.checksum ["checksum.txt"] "md5" helloWorldFS =
        (.ok (md5Hex helloWorldBytes), helloWorldFS) ∧
      (md5Hex helloWorldBytes).length = 32 ∧
      (∀ ch ∈ (md5Hex helloWorldBytes).data, ch ∈ lowerHexChars) ∧
      (∀ fs2 q, lookupFS fs2 q = some (.file helloWorldBytes) →
        FileHandler.checksum q "sha256" fs2 =
            (.ok (sha256Hex helloWorldBytes), fs2) ∧
          FileHandler.checksum q "md5" fs2 =
            (.ok (md5Hex helloWorldBytes), fs2)) :=
  C6_checksum_properties helloWorldFS ["checksum.txt"] helloWorldBytes rfl

theorem C2_witness : run_benchmarks 0 (fun _ => 5) = none :=
  (C2_no_zero_iterations_special_case 0 (fun _ => 5)).mpr rfl

example :
    csvRecords [97, 44, 98, 10, 34, 49, 34, 44, 50, 10] =
      [[[97], [98]], [[49], [50]]] := by decide

example :
    csvRecords [97, 44, 98, 13, 49, 44, 50, 10] =
      [[[97], [98]], [[49], [50]]] := by decide

example : csvRecords [34, 97, 34, 34, 98, 34, 10] = [[[97, 34, 98]]] := by
  decide

example : csvRecords [239, 187, 191, 97, 10] = [[[97]]] := by decide

example :
    FileHandler.read_csv ["r.csv"] [(["r.csv"], .file [97, 10, 209, 49, 10])] =
      (.error (.CsvError "invalid utf-8 in record"),
        [(["r.csv"], .file [97, 10, 209, 49, 10])]) := by decide

example :
    FileHandler.read_csv ["h.csv"] [(["h.csv"], .file [209, 49, 10, 97, 10])] =
      (.error (.CsvError "invalid utf-8 in headers"),
        [(["h.csv"], .file [209, 49, 10, 97, 10])]) := by decide
